import Mathlib

/-!
Shallow embedding of the service-request status-transition core of
`src/services/serviceRequests.service.ts`.

Modelling conventions:
- Timestamps and dates are `Nat` (milliseconds since epoch); `new Date()`
  at execution time is passed in as an explicit `now` parameter.
- The database is abstracted away: every read the TypeScript function
  performs (`getServiceRequestById`, `getFranchiseById`, agent lookup,
  existing-service-request lookup, payments query) is passed in as an
  explicit `Option`-valued parameter, and every write the function
  performs (`db.update`, `db.insert`, `logActionHistory`) is returned as
  an ordered trace of `DbWrite` events.  An `Except.error` result models
  a thrown error: no write has been issued at that point for the
  functions modelled here (in the source every `throw` in these
  functions precedes the first `await db.update`/`db.insert`).
- JSON image serialization is abstracted: an image list is carried as a
  `List String` (`FieldVal.imgs`), matching `JSON.stringify` of the
  array on write.
- JS truthiness: `if (data?.paymentAmount)` is falsy for `undefined` and
  `0`, modelled as `Option Int` being `some v` with `v ≠ 0`;
  `if (data?.agentId)` / `if (data?.scheduledDate)` are modelled as
  `Option.isSome` (identifiers and dates are opaque non-empty values).
-/

inductive ServiceRequestStatus
  | CREATED
  | ASSIGNED
  | SCHEDULED
  | IN_PROGRESS
  | PAYMENT_PENDING
  | COMPLETED
  | CANCELLED
deriving DecidableEq, Repr

inductive ServiceRequestType
  | GENERAL
  | INSTALLATION
  | MAINTENANCE
deriving DecidableEq, Repr

inductive InstallationRequestStatus
  | SUBMITTED
  | PAYMENT_PENDING
  | INSTALLATION_SCHEDULED
  | INSTALLATION_IN_PROGRESS
  | INSTALLATION_COMPLETED
  | CANCELLED
deriving DecidableEq, Repr

inductive PaymentStatus
  | PENDING
  | COMPLETED
  | FAILED
deriving DecidableEq, Repr

inductive UserRole
  | ADMIN
  | FRANCHISE_OWNER
  | SERVICE_AGENT
  | CUSTOMER
deriving DecidableEq, Repr

/-- Acting-user descriptor `{userId, role, name?, phone?}`. -/
structure User where
  userId : String
  role : UserRole
  name : Option String := none
  phone : Option String := none
deriving DecidableEq, Repr

/-- The service-request row, restricted to the fields the transition
core reads or writes. -/
structure ServiceRequest where
  id : String
  customerId : String
  productId : String
  subscriptionId : Option String := none
  installationRequestId : Option String := none
  type : ServiceRequestType
  status : ServiceRequestStatus
  assignedToId : Option String := none
  franchiseId : String
  scheduledDate : Option Nat := none
  completedDate : Option Nat := none
  beforeImages : List String := []
  afterImages : List String := []
  requiresPayment : Bool
  paymentAmount : Option Int := none
  createdAt : Nat := 0
  updatedAt : Nat := 0
deriving DecidableEq, Repr

/-- Installation-request row, restricted to the fields consulted here. -/
structure InstallationRequest where
  id : String
  customerId : String
  productId : String
  franchiseId : String
  status : InstallationRequestStatus
deriving DecidableEq, Repr

/-- Franchise row, as returned by `getFranchiseById`. -/
structure Franchise where
  id : String
  ownerId : String
  city : String
deriving DecidableEq, Repr

/-- Payment row, restricted to the fields consulted by
`validateInstallationSpecificTransitions`. -/
structure Payment where
  id : String
  installationRequestId : Option String := none
  serviceRequestId : Option String := none
  status : PaymentStatus
deriving DecidableEq, Repr

/-- Error kinds raised by `src/utils/errors` (`notFound`, `badRequest`,
`forbidden`), carrying the message string from the source. -/
inductive ServiceError
  | notFound (what : String)
  | badRequest (msg : String)
  | forbidden (msg : String)
deriving DecidableEq, Repr

/-- A value written into a row field by a `db.update`/`db.insert`. -/
inductive FieldVal
  | s (v : String)
  | n (v : Int)
  | t (v : Nat)
  | imgs (v : List String)
deriving DecidableEq, Repr

/-- One database side effect, in issue order: an update of a
service-request row (keyed field assignments exactly as the source
builds them), an update of an installation-request row, an insert of a
new service-request row, or an action-history append. -/
inductive DbWrite
  | updateServiceRequest (id : String) (fields : List (String × FieldVal))
  | updateInstallationRequest (id : String) (status : Option InstallationRequestStatus)
  | insertServiceRequest (record : ServiceRequest)
  | logAction (entityType : String) (entityId : String) (action : String) (performedBy : String)
deriving DecidableEq, Repr

/-- The optional `data` argument of `updateServiceRequestStatus`. -/
structure UpdateStatusData where
  agentId : Option String := none
  completedAt : Option Nat := none
  scheduledDate : Option Nat := none
  paymentAmount : Option Int := none
  images : Option (List String) := none
deriving DecidableEq, Repr

/-- String value of a `ServiceRequestStatus` enum member. -/
def statusToString : ServiceRequestStatus → String
  | .CREATED => "CREATED"
  | .ASSIGNED => "ASSIGNED"
  | .SCHEDULED => "SCHEDULED"
  | .IN_PROGRESS => "IN_PROGRESS"
  | .PAYMENT_PENDING => "PAYMENT_PENDING"
  | .COMPLETED => "COMPLETED"
  | .CANCELLED => "CANCELLED"

/-- `status.toLowerCase()` as used in history action names. -/
def statusActionName : ServiceRequestStatus → String
  | .CREATED => "created"
  | .ASSIGNED => "assigned"
  | .SCHEDULED => "scheduled"
  | .IN_PROGRESS => "in_progress"
  | .PAYMENT_PENDING => "payment_pending"
  | .COMPLETED => "completed"
  | .CANCELLED => "cancelled"

/-- The static `validTransitions` table of `updateServiceRequestStatus`
(source lines 414-422). -/
def validTransitions : ServiceRequestStatus → List ServiceRequestStatus
  | .CREATED => [.ASSIGNED, .CANCELLED]
  | .ASSIGNED => [.SCHEDULED, .CANCELLED]
  | .SCHEDULED => [.IN_PROGRESS, .CANCELLED]
  | .IN_PROGRESS => [.PAYMENT_PENDING, .COMPLETED, .CANCELLED]
  | .PAYMENT_PENDING => [.COMPLETED, .CANCELLED]
  | .COMPLETED => []
  | .CANCELLED => [.ASSIGNED, .SCHEDULED]

/-- The `badRequest` message of the invalid-transition rejection
(source line 426): names the current status, the requested status and
the allowed set (`join(', ') || 'none'`). -/
def invalidTransitionMsg (cur target : ServiceRequestStatus) : String :=
  let allowed := (validTransitions cur).map statusToString
  let allowedStr := if allowed.isEmpty then "none" else String.intercalate ", " allowed
  "Invalid status transition from " ++ statusToString cur ++ " to " ++ statusToString target
    ++ ". Valid transitions are: " ++ allowedStr

/-- `data?.images && data.images.length > 0` collapses `undefined` and
`[]`; this helper yields the supplied image list, `[]` when absent. -/
def dataImages (data : Option UpdateStatusData) : List String :=
  (data.bind fun d => d.images).getD []

/-- `data?.agentId`. -/
def dataAgentId (data : Option UpdateStatusData) : Option String :=
  data.bind fun d => d.agentId

/-- `data?.scheduledDate`. -/
def dataScheduledDate (data : Option UpdateStatusData) : Option Nat :=
  data.bind fun d => d.scheduledDate

/-- `data?.paymentAmount`. -/
def dataPaymentAmount (data : Option UpdateStatusData) : Option Int :=
  data.bind fun d => d.paymentAmount

/-- The `switch (status)` block of status-specific validations in
`updateServiceRequestStatus` (source lines 430-476).  `CREATED` and
`CANCELLED` have no case and fall through. -/
def statusSpecificCheck (sr : ServiceRequest) (status : ServiceRequestStatus)
    (data : Option UpdateStatusData) : Except ServiceError Unit :=
  match status with
  | .ASSIGNED =>
    if (dataAgentId data).isNone then
      .error (.badRequest "Agent ID is required for assignment")
    else .ok ()
  | .SCHEDULED =>
    if sr.assignedToId.isNone then
      .error (.badRequest "Cannot schedule without assigned agent")
    else if (dataScheduledDate data).isNone then
      .error (.badRequest "Scheduled date is required")
    else .ok ()
  | .IN_PROGRESS =>
    if sr.type = ServiceRequestType.INSTALLATION ∧ dataImages data = [] then
      .error (.badRequest "Before images are required to start installation service requests")
    else .ok ()
  | .PAYMENT_PENDING =>
    if sr.requiresPayment = false then
      .error (.badRequest "This service request does not require payment")
    else if (match dataPaymentAmount data with
             | none => true
             | some v => v ≤ 0) then
      .error (.badRequest "Payment amount is required")
    else if dataImages data = [] then
      .error (.badRequest "Completion images are required before requesting payment")
    else .ok ()
  | .COMPLETED =>
    if dataImages data = [] then
      .error (.badRequest "Completion images are required to mark as completed")
    else if sr.requiresPayment = true ∧ sr.status = ServiceRequestStatus.IN_PROGRESS then
      .error (.badRequest "Service requests requiring payment must go through PAYMENT_PENDING status first")
    else .ok ()
  | _ => .ok ()

/-- The `updateData` object built at source lines 478-494, as the
ordered list of keyed assignments the source issues.  Note the keys the
source actually writes: `assignedAgentId` (line 484) and `completedAt`
(line 487) — not the row columns `assignedToId` / `completedDate` used
everywhere else in the file. -/
def buildUpdateData (status : ServiceRequestStatus) (data : Option UpdateStatusData)
    (now : Nat) : List (String × FieldVal) :=
  let l : List (String × FieldVal) :=
    [("status", FieldVal.s (statusToString status)), ("updatedAt", FieldVal.t now)]
  let l := match dataAgentId data with
    | some a => l ++ [("assignedAgentId", FieldVal.s a)]
    | none => l
  let l := match dataScheduledDate data with
    | some d => l ++ [("scheduledDate", FieldVal.t d)]
    | none => l
  let l := match dataPaymentAmount data with
    | some p => if p ≠ 0 then l ++ [("paymentAmount", FieldVal.n p)] else l
    | none => l
  let l := if status = ServiceRequestStatus.COMPLETED then
      l ++ [("completedAt", FieldVal.t now)]
    else l
  let imgs := dataImages data
  if imgs ≠ [] then
    l ++ [((if status = ServiceRequestStatus.IN_PROGRESS then "beforeImages" else "afterImages"),
           FieldVal.imgs imgs)]
  else l

/-- The write trace of a successful `updateServiceRequestStatus` run
(source lines 496-526): the row update, the service-request history
append, and — when the request carries a subscription link — a second,
subscription-scoped history append.  No other write is issued; in
particular no installation-request update. -/
def updateStatusWrites (sr : ServiceRequest) (status : ServiceRequestStatus) (user : User)
    (data : Option UpdateStatusData) (now : Nat) : List DbWrite :=
  [DbWrite.updateServiceRequest sr.id (buildUpdateData status data now),
   DbWrite.logAction "service_request" sr.id
     ("status_updated_to_" ++ statusActionName status) user.userId]
  ++ match sr.subscriptionId with
     | some subId =>
       [DbWrite.logAction "subscription" subId
         ("service_request_" ++ statusActionName status) user.userId]
     | none => []

/-- `updateServiceRequestStatus(id, status, user, data?)` (source lines
392-529).  `sr?` is the result of the initial `getServiceRequestById`
fetch; an error result models a `throw` before any write. -/
def updateServiceRequestStatus (sr? : Option ServiceRequest) (status : ServiceRequestStatus)
    (user : User) (data : Option UpdateStatusData) (now : Nat) :
    Except ServiceError (List DbWrite) :=
  match sr? with
  | none => .error (.notFound "Service Request")
  | some sr =>
    if status ∉ validTransitions sr.status then
      .error (.badRequest (invalidTransitionMsg sr.status status))
    else
      match statusSpecificCheck sr status data with
      | .error e => .error e
      | .ok _ => .ok (updateStatusWrites sr status user data now)

/-- The `images` argument shape of the two uninvoked validator
functions. -/
structure ImagesArg where
  beforeImages : Option (List String) := none
  afterImages : Option (List String) := none
deriving DecidableEq, Repr

/-- SQL comparison semantics of the drizzle `eq(column, value)` filter
on a nullable column: a NULL on either side matches no row (`column =
NULL` is never satisfied), so a NULL lookup value selects nothing even
from rows whose column is itself NULL. -/
def sqlEqOpt (a b : Option String) : Bool :=
  match a, b with
  | some x, some y => x == y
  | _, _ => false

/-- A `sqlEqOpt` match requires the lookup value to be non-null and the
column to equal it. -/
theorem sqlEqOpt_true_iff (a b : Option String) :
    sqlEqOpt a b = true ↔ b ≠ none ∧ a = b := by
  cases a <;> cases b <;> simp [sqlEqOpt]

/-- `validateInstallationSpecificTransitions` (source lines 587-620).
This function is reachable only from `validateServiceRequestTransition`,
which nothing in the repository invokes; it is embedded because the
spec's installation-specific rules live here.  `payments` abstracts the
payments table consulted by the `PAYMENT_PENDING → COMPLETED` branch
(`findFirst` on `eq(installationRequestId, sr.installationRequestId)`
and `eq(status, COMPLETED)`, with SQL NULL semantics for the first
filter: a request with no installation-request link matches no payment
row). -/
def validateInstallationSpecificTransitions (sr : ServiceRequest)
    (currentStatus newStatus : ServiceRequestStatus) (images : Option ImagesArg)
    (payments : List Payment) : Except ServiceError Unit :=
  if currentStatus = ServiceRequestStatus.IN_PROGRESS ∧
     newStatus = ServiceRequestStatus.COMPLETED then
    .error (.badRequest "Installation service requests must go through PAYMENT_PENDING status before completion")
  else if currentStatus = ServiceRequestStatus.IN_PROGRESS ∧
          newStatus = ServiceRequestStatus.PAYMENT_PENDING then
    if (images.bind fun i => i.afterImages).getD [] = [] then
      .error (.badRequest "Installation completion images are required before moving to payment pending")
    else .ok ()
  else if currentStatus = ServiceRequestStatus.PAYMENT_PENDING ∧
          newStatus = ServiceRequestStatus.COMPLETED then
    match payments.find? (fun p =>
        sqlEqOpt p.installationRequestId sr.installationRequestId &&
        p.status == PaymentStatus.COMPLETED) with
    | none => .error (.badRequest "please complete payment first")
    | some _ => .ok ()
  else .ok ()

/-- The status map inside `syncInstallationRequestStatus` (source lines
644-661): `installationStatus` stays `null` for unmapped statuses. -/
def installationStatusMap : ServiceRequestStatus → Option InstallationRequestStatus
  | .IN_PROGRESS => some .INSTALLATION_IN_PROGRESS
  | .PAYMENT_PENDING => some .PAYMENT_PENDING
  | .COMPLETED => some .INSTALLATION_COMPLETED
  | .CANCELLED => some .CANCELLED
  | _ => none

/-- `syncInstallationRequestStatus` (source lines 633-675).  Nothing in
the repository calls it.  Note the installation-request update is issued
unconditionally, so an unmapped service status writes a `null`
installation status rather than leaving the row untouched. -/
def syncInstallationRequestStatus (installationRequestId : String)
    (serviceRequestStatus : ServiceRequestStatus) (user : User)
    (serviceRequestId : String) : List DbWrite :=
  [DbWrite.updateInstallationRequest installationRequestId
     (installationStatusMap serviceRequestStatus),
   DbWrite.logAction "installation_request" installationRequestId
     "sync" user.userId]

/-- The `data` argument of `createInstallationServiceRequest`. -/
structure CreateInstallationData where
  installationRequestId : String
  assignedToId : Option String := none
  scheduledDate : Option Nat := none
  description : String := ""
deriving DecidableEq, Repr

/-- The service-request update issued by the upsert branch of
`createInstallationServiceRequest` (source lines 287-292):
`{status: SCHEDULED, assignedToId: data.assignedToId}`; an `undefined`
`assignedToId` is skipped by the store layer. -/
def upsertExistingFields (data : CreateInstallationData) : List (String × FieldVal) :=
  [("status", FieldVal.s "SCHEDULED")]
  ++ match data.assignedToId with
     | some a => [("assignedToId", FieldVal.s a)]
     | none => []

/-- The row inserted by the insert branch of
`createInstallationServiceRequest` (source lines 318-341). -/
def newInstallationServiceRequest (data : CreateInstallationData)
    (ir : InstallationRequest) (newId : String) (now : Nat) : ServiceRequest :=
  { id := newId
    customerId := ir.customerId
    productId := ir.productId
    subscriptionId := none
    installationRequestId := some data.installationRequestId
    type := ServiceRequestType.INSTALLATION
    status := if data.assignedToId.isSome then ServiceRequestStatus.SCHEDULED
              else ServiceRequestStatus.CREATED
    assignedToId := data.assignedToId
    franchiseId := ir.franchiseId
    scheduledDate := data.scheduledDate
    completedDate := none
    beforeImages := []
    afterImages := []
    requiresPayment := true
    paymentAmount := none
    createdAt := now
    updatedAt := now }

/-- Whether `getFranchiseById` resolved a franchise owned by the acting
user (`!franchise || franchise.ownerId !== user.userId` negated). -/
def franchiseOwned (franchise? : Option Franchise) (user : User) : Bool :=
  match franchise? with
  | some f => f.ownerId == user.userId
  | none => false

/-- Whether the agent lookup resolved a user with role `SERVICE_AGENT`
(`!agent || agent.role !== UserRole.SERVICE_AGENT` negated). -/
def agentValid (agent? : Option User) : Bool :=
  match agent? with
  | some agent => agent.role == UserRole.SERVICE_AGENT
  | none => false

/-- `createInstallationServiceRequest(data, user)` (source lines
259-389).  `installationRequest?` is the installation-request fetch;
`existing?` is the lookup of a service request with
`installationRequestId = data.installationRequestId` and
`type = INSTALLATION`; `franchise?` and `agent?` are the lookups the
insert branch performs.  The trailing history append (source lines
352-361) runs on both branches. -/
def createInstallationServiceRequest (data : CreateInstallationData) (user : User)
    (installationRequest? : Option InstallationRequest) (existing? : Option ServiceRequest)
    (franchise? : Option Franchise) (agent? : Option User) (newId : String) (now : Nat) :
    Except ServiceError (List DbWrite) :=
  match installationRequest? with
  | none => .error (.notFound "Installation Request")
  | some ir =>
    match existing? with
    | some existing =>
      .ok [DbWrite.updateServiceRequest existing.id (upsertExistingFields data),
           DbWrite.updateInstallationRequest ir.id
             (some InstallationRequestStatus.INSTALLATION_SCHEDULED),
           DbWrite.logAction "installation_request" data.installationRequestId
             "INSTALLATION_REQUEST_SCHEDULED" user.userId]
    | none =>
      if user.role = UserRole.FRANCHISE_OWNER ∧ franchiseOwned franchise? user = false then
        .error (.forbidden "Installation request is not in your franchise area")
      else if data.assignedToId.isSome ∧ agentValid agent? = false then
        .error (.badRequest "Invalid service agent")
      else
        .ok [DbWrite.insertServiceRequest (newInstallationServiceRequest data ir newId now),
             DbWrite.updateInstallationRequest ir.id
               (some InstallationRequestStatus.INSTALLATION_SCHEDULED),
             DbWrite.logAction "installation_request" data.installationRequestId
               "INSTALLATION_REQUEST_SCHEDULED" user.userId]

/-- The write trace of a successful `assignServiceAgent` (source lines
701-718): sets `assignedToId`, `status = ASSIGNED`, `updatedAt`, with
no check of the current status. -/
def assignWrites (sr : ServiceRequest) (assignedToId : String) (user : User)
    (now : Nat) : List DbWrite :=
  [DbWrite.updateServiceRequest sr.id
     [("assignedToId", FieldVal.s assignedToId),
      ("status", FieldVal.s "ASSIGNED"),
      ("updatedAt", FieldVal.t now)],
   DbWrite.logAction "service_request" sr.id "SERVICE_REQUEST_ASSIGNED" user.userId]

/-- `assignServiceAgent(id, assignedToId, user)` (source lines 677-723).
`franchise?` is the `getFranchiseById(sr.franchiseId)` lookup, `agent?`
the agent lookup. -/
def assignServiceAgent (sr? : Option ServiceRequest) (assignedToId : String) (user : User)
    (franchise? : Option Franchise) (agent? : Option User) (now : Nat) :
    Except ServiceError (List DbWrite) :=
  match sr? with
  | none => .error (.notFound "Service Request")
  | some sr =>
    if user.role ≠ UserRole.ADMIN ∧ user.role ≠ UserRole.FRANCHISE_OWNER then
      .error (.forbidden "You do not have permission to assign service agents")
    else if user.role = UserRole.FRANCHISE_OWNER ∧ franchiseOwned franchise? user = false then
      .error (.forbidden "Service request is not in your franchise area")
    else
      match agent? with
      | none => .error (.badRequest "Invalid service agent")
      | some agent =>
        if agent.role ≠ UserRole.SERVICE_AGENT then
          .error (.badRequest "Invalid service agent")
        else
          .ok (assignWrites sr assignedToId user now)

/-- The `hasPermission` computation of `scheduleServiceRequest` (source
lines 750-759). -/
def schedulePermission (sr : ServiceRequest) (user : User)
    (franchise? : Option Franchise) : Bool :=
  if user.role = UserRole.ADMIN then true
  else if user.role = UserRole.SERVICE_AGENT ∧ sr.assignedToId = some user.userId then true
  else if user.role = UserRole.FRANCHISE_OWNER then franchiseOwned franchise? user
  else false

/-- The write trace of a successful `scheduleServiceRequest` (source
lines 770-786): sets `scheduledDate`, `status = SCHEDULED`,
`updatedAt`, with no check of the current status or of `assignedToId`. -/
def scheduleWrites (sr : ServiceRequest) (scheduledDate : Nat) (user : User)
    (now : Nat) : List DbWrite :=
  [DbWrite.updateServiceRequest sr.id
     [("scheduledDate", FieldVal.t scheduledDate),
      ("status", FieldVal.s "SCHEDULED"),
      ("updatedAt", FieldVal.t now)],
   DbWrite.logAction "service_request" sr.id "SERVICE_REQUEST_SCHEDULED" user.userId]

/-- `scheduleServiceRequest(id, scheduledDate, user)` (source lines
744-792).  The date check is `scheduledDateTime <= new Date()` →
rejected. -/
def scheduleServiceRequest (sr? : Option ServiceRequest) (scheduledDate : Nat) (user : User)
    (franchise? : Option Franchise) (now : Nat) : Except ServiceError (List DbWrite) :=
  match sr? with
  | none => .error (.notFound "Service Request")
  | some sr =>
    if schedulePermission sr user franchise? = false then
      .error (.forbidden "You do not have permission to schedule this service request")
    else if scheduledDate ≤ now then
      .error (.badRequest "Scheduled date must be in the future")
    else
      .ok (scheduleWrites sr scheduledDate user now)

/-- Whether a write touches an installation-request row. -/
def isInstallationWrite : DbWrite → Bool
  | .updateInstallationRequest _ _ => true
  | _ => false

/-- Whether some service-request row update in the trace assigns the
literal string `s` to the `status` field. -/
def traceSetsStatus (tr : List DbWrite) (s : String) : Bool :=
  tr.any fun w =>
    match w with
    | .updateServiceRequest _ fields =>
      fields.any fun kv => kv.1 == "status" && kv.2 == FieldVal.s s
    | _ => false

/-- `traceSetsStatus` lifted over an `Except` result; `false` on error. -/
def okTraceSetsStatus (r : Except ServiceError (List DbWrite)) (s : String) : Bool :=
  match r with
  | .ok tr => traceSetsStatus tr s
  | .error _ => false

/-- The field keys of the leading service-request row update of a
successful result; `[]` otherwise. -/
def okUpdateKeys (r : Except ServiceError (List DbWrite)) : List String :=
  match r with
  | .ok (DbWrite.updateServiceRequest _ fields :: _) => fields.map Prod.fst
  | _ => []

/-! Concrete sample rows and users used by witnesses and
counterexamples. -/

def srBase : ServiceRequest :=
  { id := "srq1", customerId := "cust1", productId := "prod1",
    type := ServiceRequestType.GENERAL, status := ServiceRequestStatus.CREATED,
    franchiseId := "fr1", requiresPayment := false }

def adminUser : User := { userId := "admin1", role := UserRole.ADMIN }

def agentUser : User := { userId := "agent1", role := UserRole.SERVICE_AGENT }

def customerUser : User := { userId := "cust1", role := UserRole.CUSTOMER }

def srGeneralScheduled : ServiceRequest :=
  { srBase with status := ServiceRequestStatus.SCHEDULED, assignedToId := some "agent1" }

def srInstScheduled : ServiceRequest :=
  { srBase with
    status := ServiceRequestStatus.SCHEDULED
    type := ServiceRequestType.INSTALLATION
    assignedToId := some "agent1"
    installationRequestId := some "ir1"
    requiresPayment := true }

def srInstInProgressNoPay : ServiceRequest :=
  { srBase with
    status := ServiceRequestStatus.IN_PROGRESS
    type := ServiceRequestType.INSTALLATION
    installationRequestId := some "ir1"
    requiresPayment := false }

def srInstPaymentPending : ServiceRequest :=
  { srBase with
    status := ServiceRequestStatus.PAYMENT_PENDING
    type := ServiceRequestType.INSTALLATION
    installationRequestId := some "ir1"
    requiresPayment := true }

def srAssignedSample : ServiceRequest :=
  { srBase with status := ServiceRequestStatus.ASSIGNED, assignedToId := some "agent1" }

def srCompletedSample : ServiceRequest :=
  { srBase with status := ServiceRequestStatus.COMPLETED }

def srPayInProgress : ServiceRequest :=
  { srBase with status := ServiceRequestStatus.IN_PROGRESS, requiresPayment := true }

def paymentDone : Payment :=
  { id := "pay1", installationRequestId := some "ir1", status := PaymentStatus.COMPLETED }

def irSample : InstallationRequest :=
  { id := "ir1", customerId := "cust1", productId := "prod1", franchiseId := "fr1",
    status := InstallationRequestStatus.PAYMENT_PENDING }

/-- C1: whenever the requested target is not in the static transition
table row of the current status — in particular for every self-pair
X→X, since no row contains its own status — `updateServiceRequestStatus`
rejects with the BAD_REQUEST message naming the current status and the
allowed set, for every user (role is never consulted) and every supplied
evidence, and issues no write (the error is thrown before the
`db.update` call, so the entity is not modified). -/
theorem invalid_transition_always_rejected :
    (∀ (sr : ServiceRequest) (target : ServiceRequestStatus) (user : User)
       (data : Option UpdateStatusData) (now : Nat),
       target ∉ validTransitions sr.status →
       updateServiceRequestStatus (some sr) target user data now =
         .error (.badRequest (invalidTransitionMsg sr.status target))) ∧
    (∀ s : ServiceRequestStatus, s ∉ validTransitions s) := by
  constructor
  · intro sr target user data now h
    simp [updateServiceRequestStatus, h]
  · intro s
    cases s <;> decide

/-- C1 witness: a COMPLETED request rejects the (COMPLETED, ASSIGNED)
pair, which is outside the table, with the message naming the empty
allowed set. -/
theorem invalid_transition_always_rejected_witness :
    updateServiceRequestStatus (some srCompletedSample) ServiceRequestStatus.ASSIGNED
      adminUser none 100 =
      .error (.badRequest (invalidTransitionMsg ServiceRequestStatus.COMPLETED
        ServiceRequestStatus.ASSIGNED)) :=
  invalid_transition_always_rejected.1 srCompletedSample ServiceRequestStatus.ASSIGNED
    adminUser none 100 (by decide)

/-- Whether a result is a success whose trace contains no
installation-request write. -/
def okTraceNoInstallationWrite (r : Except ServiceError (List DbWrite)) : Bool :=
  match r with
  | .ok tr => tr.all fun w => !isInstallationWrite w
  | .error _ => false

/-- C2 counterexample: a GENERAL-type request in SCHEDULED is moved to
IN_PROGRESS with no images supplied at all, and the call succeeds — the
claim says a non-INSTALLATION type must be rejected without a
before-image. -/
theorem general_in_progress_without_images_accepted :
    (updateServiceRequestStatus (some srGeneralScheduled) ServiceRequestStatus.IN_PROGRESS
      adminUser none 100).isOk = true := by decide

/-- C2 (amended): on the SCHEDULED→IN_PROGRESS edge
`updateServiceRequestStatus` succeeds exactly when the type being
INSTALLATION implies at least one image was supplied: the image
requirement applies to INSTALLATION requests only, the reverse of the
claimed rule (the claimed rule is the one in the never-invoked
`validateServiceRequestTransition`). -/
theorem in_progress_image_rule_applies_to_installation_only
    (sr : ServiceRequest) (user : User) (data : Option UpdateStatusData) (now : Nat)
    (h : sr.status = ServiceRequestStatus.SCHEDULED) :
    (updateServiceRequestStatus (some sr) ServiceRequestStatus.IN_PROGRESS user data now).isOk
      = true ↔
    (sr.type = ServiceRequestType.INSTALLATION → dataImages data ≠ []) := by
  by_cases ht : sr.type = ServiceRequestType.INSTALLATION <;>
    by_cases hi : dataImages data = [] <;>
      simp [updateServiceRequestStatus, h, validTransitions, statusSpecificCheck, ht, hi,
        Except.isOk, Except.toBool]

/-- C2 witness: an INSTALLATION request in SCHEDULED with one image is
accepted into IN_PROGRESS. -/
theorem in_progress_image_rule_applies_to_installation_only_witness :
    (updateServiceRequestStatus (some srInstScheduled) ServiceRequestStatus.IN_PROGRESS
      adminUser (some { images := some ["img1"] }) 100).isOk = true :=
  (in_progress_image_rule_applies_to_installation_only srInstScheduled adminUser
    (some { images := some ["img1"] }) 100 rfl).mpr (by decide)

/-- C3 counterexample: an INSTALLATION request in IN_PROGRESS with
`requiresPayment = false` and completion images supplied is accepted
straight into COMPLETED — the claim says this edge is unconditionally
rejected for installations. -/
theorem installation_direct_completion_accepted_when_no_payment_required :
    (updateServiceRequestStatus (some srInstInProgressNoPay) ServiceRequestStatus.COMPLETED
      adminUser (some { images := some ["img2"] }) 100).isOk = true := by decide

/-- C3 (amended): for an INSTALLATION request in IN_PROGRESS,
`updateServiceRequestStatus` accepts the transition to COMPLETED exactly
when `requiresPayment` is false and at least one completion image is
supplied; the unconditional rejection of this edge exists only in
`validateInstallationSpecificTransitions`, which nothing invokes and
which indeed rejects it for every input. -/
theorem installation_in_progress_to_completed_characterization
    (sr : ServiceRequest) (user : User) (data : Option UpdateStatusData) (now : Nat)
    (ht : sr.type = ServiceRequestType.INSTALLATION)
    (h : sr.status = ServiceRequestStatus.IN_PROGRESS) :
    ((updateServiceRequestStatus (some sr) ServiceRequestStatus.COMPLETED user data now).isOk
        = true ↔
      (sr.requiresPayment = false ∧ dataImages data ≠ [])) ∧
    (∀ (images : Option ImagesArg) (payments : List Payment),
      validateInstallationSpecificTransitions sr ServiceRequestStatus.IN_PROGRESS
        ServiceRequestStatus.COMPLETED images payments =
      .error (.badRequest "Installation service requests must go through PAYMENT_PENDING status before completion")) := by
  constructor
  · by_cases hi : dataImages data = [] <;> cases hp : sr.requiresPayment <;>
      simp [updateServiceRequestStatus, h, validTransitions, statusSpecificCheck, hi, hp,
        Except.isOk, Except.toBool]
  · intro images payments
    simp [validateInstallationSpecificTransitions]

/-- C3 witness: the characterization applied to a concrete
non-payment installation request with an image. -/
theorem installation_in_progress_to_completed_characterization_witness :
    (updateServiceRequestStatus (some srInstInProgressNoPay) ServiceRequestStatus.COMPLETED
      adminUser (some { images := some ["img3"] }) 100).isOk = true :=
  ((installation_in_progress_to_completed_characterization srInstInProgressNoPay adminUser
    (some { images := some ["img3"] }) 100 rfl rfl).1).mpr (by decide)

/-- C4 counterexample: an INSTALLATION request linked to installation
request "ir1", in PAYMENT_PENDING, transitions successfully to
COMPLETED, and the trace contains no installation-request write — the
claim says the linked installation request is set to
INSTALLATION_COMPLETED. -/
theorem completed_transition_leaves_installation_request_untouched :
    okTraceNoInstallationWrite (updateServiceRequestStatus (some srInstPaymentPending)
      ServiceRequestStatus.COMPLETED adminUser (some { images := some ["img2"] }) 100) = true := by
  decide

/-- C4 (amended): no successful `updateServiceRequestStatus` run writes
an installation-request row — the synchronizer is never invoked.  The
`syncInstallationRequestStatus` function does carry the claimed mapping
(IN_PROGRESS→INSTALLATION_IN_PROGRESS, PAYMENT_PENDING→PAYMENT_PENDING,
COMPLETED→INSTALLATION_COMPLETED, CANCELLED→CANCELLED, no entry
otherwise), but if it were called it would write a null status for every
unmapped service status rather than leaving the row untouched. -/
theorem update_status_never_syncs_installation
    (sr : ServiceRequest) (target : ServiceRequestStatus) (user : User)
    (data : Option UpdateStatusData) (now : Nat) (tr : List DbWrite)
    (h : updateServiceRequestStatus (some sr) target user data now = .ok tr) :
    (tr.all fun w => !isInstallationWrite w) = true ∧
    installationStatusMap ServiceRequestStatus.IN_PROGRESS =
      some InstallationRequestStatus.INSTALLATION_IN_PROGRESS ∧
    installationStatusMap ServiceRequestStatus.PAYMENT_PENDING =
      some InstallationRequestStatus.PAYMENT_PENDING ∧
    installationStatusMap ServiceRequestStatus.COMPLETED =
      some InstallationRequestStatus.INSTALLATION_COMPLETED ∧
    installationStatusMap ServiceRequestStatus.CANCELLED =
      some InstallationRequestStatus.CANCELLED ∧
    (∀ s : ServiceRequestStatus,
      s ∉ [ServiceRequestStatus.IN_PROGRESS, ServiceRequestStatus.PAYMENT_PENDING,
           ServiceRequestStatus.COMPLETED, ServiceRequestStatus.CANCELLED] →
      installationStatusMap s = none) ∧
    (∀ (irId : String) (status : ServiceRequestStatus) (u : User) (srId : String),
      syncInstallationRequestStatus irId status u srId =
        [DbWrite.updateInstallationRequest irId (installationStatusMap status),
         DbWrite.logAction "installation_request" irId "sync" u.userId]) := by
  have htr : tr = updateStatusWrites sr target user data now := by
    by_cases hmem : target ∈ validTransitions sr.status
    · simp [updateServiceRequestStatus, hmem] at h
      cases hc : statusSpecificCheck sr target data with
      | error e => rw [hc] at h; simp at h
      | ok u => rw [hc] at h; simpa using h.symm
    · simp [updateServiceRequestStatus, hmem] at h
  refine ⟨?_, rfl, rfl, rfl, rfl, ?_, ?_⟩
  · subst htr
    cases hsub : sr.subscriptionId <;>
      simp [updateStatusWrites, hsub, isInstallationWrite]
  · intro s hs
    cases s <;> first | rfl | exact (hs (by decide)).elim
  · intro irId status u srId
    rfl

/-- C4 witness: a concrete successful cancellation produces only
service-request and history writes. -/
theorem update_status_never_syncs_installation_witness :
    ((updateStatusWrites srPayInProgress ServiceRequestStatus.CANCELLED adminUser none 100).all
      fun w => !isInstallationWrite w) = true :=
  (update_status_never_syncs_installation srPayInProgress ServiceRequestStatus.CANCELLED
    adminUser none 100 _ rfl).1

/-- C5 counterexample: `assignServiceAgent` called by an ADMIN with a
valid agent on a COMPLETED request succeeds and writes status ASSIGNED —
the claim says COMPLETED is terminal across all three operations. -/
theorem assign_agent_moves_completed_request :
    okTraceSetsStatus (assignServiceAgent (some srCompletedSample) "agent1" adminUser
      none (some agentUser) 100) "ASSIGNED" = true := by decide

/-- C5 (amended): COMPLETED is terminal under
`updateServiceRequestStatus` (its table row is empty, so every requested
target is rejected), but `assignServiceAgent` and
`scheduleServiceRequest` check only permissions and never the current
status: on a COMPLETED request an authorized call succeeds and writes
status ASSIGNED, respectively SCHEDULED. -/
theorem completed_terminal_only_for_update_status (sr : ServiceRequest)
    (h : sr.status = ServiceRequestStatus.COMPLETED) :
    (∀ (target : ServiceRequestStatus) (user : User) (data : Option UpdateStatusData)
       (now : Nat),
      (updateServiceRequestStatus (some sr) target user data now).isOk = false) ∧
    (∀ (aid : String) (user : User) (franchise? : Option Franchise) (agent : User)
       (now : Nat),
      (user.role = UserRole.ADMIN ∨
        (user.role = UserRole.FRANCHISE_OWNER ∧ franchiseOwned franchise? user = true)) →
      agent.role = UserRole.SERVICE_AGENT →
      assignServiceAgent (some sr) aid user franchise? (some agent) now =
        .ok (assignWrites sr aid user now) ∧
      traceSetsStatus (assignWrites sr aid user now) "ASSIGNED" = true) ∧
    (∀ (date : Nat) (user : User) (franchise? : Option Franchise) (now : Nat),
      schedulePermission sr user franchise? = true → now < date →
      scheduleServiceRequest (some sr) date user franchise? now =
        .ok (scheduleWrites sr date user now) ∧
      traceSetsStatus (scheduleWrites sr date user now) "SCHEDULED" = true) := by
  refine ⟨?_, ?_, ?_⟩
  · intro target user data now
    simp [updateServiceRequestStatus, h, validTransitions, Except.isOk, Except.toBool]
  · intro aid user franchise? agent now hperm hagent
    rcases hperm with hA | ⟨hF, hO⟩
    · refine ⟨?_, rfl⟩
      simp [assignServiceAgent, hA, hagent]
    · refine ⟨?_, rfl⟩
      simp [assignServiceAgent, hF, hO, hagent]
  · intro date user franchise? now hp hd
    refine ⟨?_, rfl⟩
    simp [scheduleServiceRequest, hp, Nat.not_le.mpr hd]

/-- C5 witness: on the concrete COMPLETED sample, every update is
rejected while an ADMIN schedule call succeeds. -/
theorem completed_terminal_only_for_update_status_witness :
    (updateServiceRequestStatus (some srCompletedSample) ServiceRequestStatus.SCHEDULED
      adminUser none 100).isOk = false ∧
    scheduleServiceRequest (some srCompletedSample) 200 adminUser none 100 =
      .ok (scheduleWrites srCompletedSample 200 adminUser 100) :=
  ⟨(completed_terminal_only_for_update_status srCompletedSample rfl).1
      ServiceRequestStatus.SCHEDULED adminUser none 100,
   ((completed_terminal_only_for_update_status srCompletedSample rfl).2.2
      200 adminUser none 100 rfl (by decide)).1⟩

/-- C6 counterexample: an INSTALLATION request in PAYMENT_PENDING is
moved to COMPLETED with only images supplied; the call consults no
payment data and succeeds — the claim says it must be rejected with
"please complete payment first" when no completed payment record
exists. -/
theorem payment_pending_completed_accepted_without_payment_record :
    (updateServiceRequestStatus (some srInstPaymentPending) ServiceRequestStatus.COMPLETED
      adminUser (some { images := some ["img2"] }) 100).isOk = true := by decide

/-- C6 (amended): for an INSTALLATION request in PAYMENT_PENDING,
`updateServiceRequestStatus` accepts the transition to COMPLETED
whenever at least one completion image is supplied, consulting no
payment records.  The "please complete payment first" gate exists only
in `validateInstallationSpecificTransitions`, which nothing invokes;
that function passes exactly when the request carries an
installation-request link and a COMPLETED payment row carries that same
link (under SQL NULL semantics a request with no link matches no payment
row, so it always rejects), and rejects with that message otherwise. -/
theorem payment_pending_to_completed_characterization
    (sr : ServiceRequest) (user : User) (data : Option UpdateStatusData) (now : Nat)
    (ht : sr.type = ServiceRequestType.INSTALLATION)
    (h : sr.status = ServiceRequestStatus.PAYMENT_PENDING) :
    ((updateServiceRequestStatus (some sr) ServiceRequestStatus.COMPLETED user data now).isOk
        = true ↔ dataImages data ≠ []) ∧
    (∀ (images : Option ImagesArg) (payments : List Payment),
      validateInstallationSpecificTransitions sr ServiceRequestStatus.PAYMENT_PENDING
          ServiceRequestStatus.COMPLETED images payments = .ok () ↔
        (sr.installationRequestId ≠ none ∧
         ∃ p ∈ payments, p.installationRequestId = sr.installationRequestId ∧
           p.status = PaymentStatus.COMPLETED)) ∧
    (∀ (images : Option ImagesArg) (payments : List Payment),
      (¬ (sr.installationRequestId ≠ none ∧
          ∃ p ∈ payments, p.installationRequestId = sr.installationRequestId ∧
            p.status = PaymentStatus.COMPLETED)) →
      validateInstallationSpecificTransitions sr ServiceRequestStatus.PAYMENT_PENDING
          ServiceRequestStatus.COMPLETED images payments =
        .error (.badRequest "please complete payment first")) := by
  have key : ∀ p : Payment,
      ((sqlEqOpt p.installationRequestId sr.installationRequestId &&
        p.status == PaymentStatus.COMPLETED) = true) ↔
      (sr.installationRequestId ≠ none ∧ p.installationRequestId = sr.installationRequestId ∧
        p.status = PaymentStatus.COMPLETED) := by
    intro p
    rw [Bool.and_eq_true, sqlEqOpt_true_iff, beq_iff_eq]
    tauto
  refine ⟨?_, ?_, ?_⟩
  · by_cases hi : dataImages data = [] <;>
      simp [updateServiceRequestStatus, h, validTransitions, statusSpecificCheck, hi,
        Except.isOk, Except.toBool]
  · intro images payments
    cases hf : payments.find? (fun p =>
        sqlEqOpt p.installationRequestId sr.installationRequestId &&
        p.status == PaymentStatus.COMPLETED) with
    | none =>
      have hnone := List.find?_eq_none.mp hf
      simp [validateInstallationSpecificTransitions, hf]
      rintro hlink p hp h1 h2
      have := hnone p hp
      rw [key p] at this
      exact this ⟨hlink, h1, h2⟩
    | some p =>
      have hmem := List.mem_of_find?_eq_some hf
      have hfound := List.find?_some hf
      have hpred := (key p).mp hfound
      simp [validateInstallationSpecificTransitions, hf]
      exact ⟨hpred.1, p, hmem, hpred.2.1, hpred.2.2⟩
  · intro images payments hno
    cases hf : payments.find? (fun p =>
        sqlEqOpt p.installationRequestId sr.installationRequestId &&
        p.status == PaymentStatus.COMPLETED) with
    | none => simp [validateInstallationSpecificTransitions, hf]
    | some p =>
      exfalso
      have hmem := List.mem_of_find?_eq_some hf
      have hfound := List.find?_some hf
      have hpred := (key p).mp hfound
      exact hno ⟨hpred.1, p, hmem, hpred.2.1, hpred.2.2⟩

/-- C6 witness: the live path accepts with an image, and the dormant
validator passes once a matching completed payment record exists. -/
theorem payment_pending_to_completed_characterization_witness :
    (updateServiceRequestStatus (some srInstPaymentPending) ServiceRequestStatus.COMPLETED
      adminUser (some { images := some ["img9"] }) 100).isOk = true ∧
    validateInstallationSpecificTransitions srInstPaymentPending
      ServiceRequestStatus.PAYMENT_PENDING ServiceRequestStatus.COMPLETED none [paymentDone] =
      .ok () :=
  ⟨(payment_pending_to_completed_characterization srInstPaymentPending adminUser
      (some { images := some ["img9"] }) 100 rfl rfl).1.mpr (by decide),
   ((payment_pending_to_completed_characterization srInstPaymentPending adminUser
      (some { images := some ["img9"] }) 100 rfl rfl).2.1 none [paymentDone]).mpr (by decide)⟩

/-- C7 counterexample: an ASSIGNED request with an assigned agent is
scheduled through `updateServiceRequestStatus` with scheduled date 50
while the evaluation time is 100 — a past date — and the call succeeds;
the claim says a past date is rejected with "Scheduled date must be in
the future". -/
theorem past_scheduled_date_accepted_by_update_status :
    (updateServiceRequestStatus (some srAssignedSample) ServiceRequestStatus.SCHEDULED
      adminUser (some { scheduledDate := some 50 }) 100).isOk = true := by decide

/-- C7 (amended): on a table-permitted edge into SCHEDULED,
`updateServiceRequestStatus` accepts exactly when the request has a
non-null `assignedToId` and a scheduled date is supplied — it performs
no future-date check; the "Scheduled date must be in the future"
rejection of a past-or-present date exists only in
`scheduleServiceRequest`, which conversely checks neither the current
status nor `assignedToId`. -/
theorem scheduled_transition_characterization
    (sr : ServiceRequest) (user : User) (data : Option UpdateStatusData) (now : Nat)
    (h : ServiceRequestStatus.SCHEDULED ∈ validTransitions sr.status) :
    ((updateServiceRequestStatus (some sr) ServiceRequestStatus.SCHEDULED user data now).isOk
        = true ↔
      (sr.assignedToId.isSome = true ∧ (dataScheduledDate data).isSome = true)) ∧
    (∀ (date : Nat) (franchise? : Option Franchise),
      schedulePermission sr user franchise? = true → date ≤ now →
      scheduleServiceRequest (some sr) date user franchise? now =
        .error (.badRequest "Scheduled date must be in the future")) := by
  constructor
  · cases ha : sr.assignedToId <;> cases hd : dataScheduledDate data <;>
      simp [updateServiceRequestStatus, h, statusSpecificCheck, ha, hd,
        Except.isOk, Except.toBool]
  · intro date franchise? hp hd
    simp [scheduleServiceRequest, hp, hd]

/-- C7 witness: a future date is accepted by the live update path, and
a present date is rejected by `scheduleServiceRequest`. -/
theorem scheduled_transition_characterization_witness :
    (updateServiceRequestStatus (some srAssignedSample) ServiceRequestStatus.SCHEDULED
      adminUser (some { scheduledDate := some 250 }) 100).isOk = true ∧
    scheduleServiceRequest (some srAssignedSample) 100 adminUser none 100 =
      .error (.badRequest "Scheduled date must be in the future") :=
  ⟨(scheduled_transition_characterization srAssignedSample adminUser
      (some { scheduledDate := some 250 }) 100 (by decide)).1.mpr (by decide),
   (scheduled_transition_characterization srAssignedSample adminUser
      (some { scheduledDate := some 250 }) 100 (by decide)).2 100 none rfl (by decide)⟩

/-- C8: a request with `requiresPayment = true` in IN_PROGRESS is never
moved directly to COMPLETED (the images check or the PAYMENT_PENDING
gate rejects it), and the only table rows containing COMPLETED are
IN_PROGRESS and PAYMENT_PENDING, so a payment-requiring request can
reach COMPLETED only through PAYMENT_PENDING. -/
theorem requires_payment_blocks_direct_completion
    (sr : ServiceRequest) (user : User) (data : Option UpdateStatusData) (now : Nat)
    (hp : sr.requiresPayment = true) (h : sr.status = ServiceRequestStatus.IN_PROGRESS) :
    (updateServiceRequestStatus (some sr) ServiceRequestStatus.COMPLETED user data now).isOk
      = false ∧
    (∀ s : ServiceRequestStatus, ServiceRequestStatus.COMPLETED ∈ validTransitions s →
      s = ServiceRequestStatus.IN_PROGRESS ∨ s = ServiceRequestStatus.PAYMENT_PENDING) := by
  constructor
  · by_cases hi : dataImages data = [] <;>
      simp [updateServiceRequestStatus, h, validTransitions, statusSpecificCheck, hi, hp,
        Except.isOk, Except.toBool]
  · intro s hs
    cases s <;> revert hs <;> decide

/-- C8 witness: a concrete payment-requiring in-progress request with
completion images supplied is still rejected. -/
theorem requires_payment_blocks_direct_completion_witness :
    (updateServiceRequestStatus (some srPayInProgress) ServiceRequestStatus.COMPLETED
      adminUser (some { images := some ["imgX"] }) 100).isOk = false :=
  (requires_payment_blocks_direct_completion srPayInProgress adminUser
    (some { images := some ["imgX"] }) 100 rfl rfl).1

/-- C9: on accepted transitions the update object writes the keys
`assignedAgentId` (when an agent id is supplied) and `completedAt` (when
the target is COMPLETED) — not the entity's columns `assignedToId` and
`completedDate` that the claim (and the rest of the file) names.  A
CREATED→ASSIGNED update with an agent id and a PAYMENT_PENDING→COMPLETED
update are evaluated concretely: the written key lists contain the
mismatched names and omit the claimed ones. -/
theorem update_status_writes_mismatched_field_keys :
    okUpdateKeys (updateServiceRequestStatus (some srBase) ServiceRequestStatus.ASSIGNED
        adminUser (some { agentId := some "agent1" }) 100) =
      ["status", "updatedAt", "assignedAgentId"] ∧
    "assignedToId" ∉ okUpdateKeys (updateServiceRequestStatus (some srBase)
        ServiceRequestStatus.ASSIGNED adminUser (some { agentId := some "agent1" }) 100) ∧
    okUpdateKeys (updateServiceRequestStatus (some srInstPaymentPending)
        ServiceRequestStatus.COMPLETED adminUser (some { images := some ["img2"] }) 100) =
      ["status", "updatedAt", "completedAt", "afterImages"] ∧
    "completedDate" ∉ okUpdateKeys (updateServiceRequestStatus (some srInstPaymentPending)
        ServiceRequestStatus.COMPLETED adminUser (some { images := some ["img2"] }) 100) := by
  refine ⟨rfl, by decide, rfl, by decide⟩

/-- C10: when a service request of type INSTALLATION linked to the given
installation request already exists, `createInstallationServiceRequest`
takes the upsert branch for every acting user and every (possibly
absent/unowned) franchise and (possibly invalid) agent lookup — the
result does not depend on them, so no role, franchise-ownership or
agent-validity check runs — and the branch writes status SCHEDULED (and
the supplied agent id, when present) on the existing request and
INSTALLATION_SCHEDULED on the installation request. -/
theorem upsert_branch_skips_all_checks
    (data : CreateInstallationData) (user : User) (ir : InstallationRequest)
    (existing : ServiceRequest) (franchise? : Option Franchise) (agent? : Option User)
    (newId : String) (now : Nat)
    (ht : existing.type = ServiceRequestType.INSTALLATION)
    (hl : existing.installationRequestId = some data.installationRequestId) :
    createInstallationServiceRequest data user (some ir) (some existing) franchise? agent?
        newId now =
      .ok [DbWrite.updateServiceRequest existing.id (upsertExistingFields data),
           DbWrite.updateInstallationRequest ir.id
             (some InstallationRequestStatus.INSTALLATION_SCHEDULED),
           DbWrite.logAction "installation_request" data.installationRequestId
             "INSTALLATION_REQUEST_SCHEDULED" user.userId] ∧
    ("status", FieldVal.s "SCHEDULED") ∈ upsertExistingFields data ∧
    (∀ a : String, data.assignedToId = some a →
      ("assignedToId", FieldVal.s a) ∈ upsertExistingFields data) := by
  refine ⟨rfl, ?_, ?_⟩
  · simp [upsertExistingFields]
  · intro a ha
    simp [upsertExistingFields, ha]

/-- C10 witness: a CUSTOMER with no franchise and no agent lookup still
triggers the upsert on the existing linked installation service
request. -/
theorem upsert_branch_skips_all_checks_witness :
    createInstallationServiceRequest { installationRequestId := "ir1" } customerUser
        (some irSample) (some srInstScheduled) none none "srqNew" 100 =
      .ok [DbWrite.updateServiceRequest "srq1"
             (upsertExistingFields { installationRequestId := "ir1" }),
           DbWrite.updateInstallationRequest "ir1"
             (some InstallationRequestStatus.INSTALLATION_SCHEDULED),
           DbWrite.logAction "installation_request" "ir1"
             "INSTALLATION_REQUEST_SCHEDULED" "cust1"] :=
  (upsert_branch_skips_all_checks { installationRequestId := "ir1" } customerUser irSample
    srInstScheduled none none "srqNew" 100 rfl rfl).1
